import Mathlib

/-!
Shallow embedding of `firecli/mark.py` (the `gamaficer` command and its
helpers).  Python strings are Lean `String`s, Python floats are modelled as
rationals (for parsed data) and reals (where `math.sqrt` is involved),
Python `None` is `Option.none`, exceptions are `Except`/`Option` results,
and the side effects of the run (printed diagnostics, written output files)
are returned explicitly in a `RunResult` record.
-/

/-- Python strings are sequences of code points; the helpers below work on
`String.data` with structural recursion.  Accumulator-based splitting for
`str.split()`: split on runs of whitespace, discarding empty pieces. -/
def pySplitAux : List Char → List Char → List String
  | [], acc => if acc.isEmpty then [] else [String.mk acc.reverse]
  | c :: rest, acc =>
      if c.isWhitespace then
        if acc.isEmpty then pySplitAux rest []
        else String.mk acc.reverse :: pySplitAux rest []
      else pySplitAux rest (c :: acc)

/-- Models Python `str.split()` with no argument. -/
def pySplit (s : String) : List String :=
  pySplitAux s.data []

/-- Models Python `str.strip()` with no argument: remove leading and
trailing whitespace. -/
def pyStrip (cs : List Char) : List Char :=
  ((cs.dropWhile (fun c => c.isWhitespace)).reverse.dropWhile
    (fun c => c.isWhitespace)).reverse

/-- Models Python `s.endswith(t)`. -/
def pyEndsWith (s t : String) : Bool :=
  List.isPrefixOf t.data.reverse s.data.reverse

/-- Models Python `s[:-n]` for `0 < n ≤ len(s)`: drop the last `n`
characters. -/
def pyDropRight (s : String) (n : Nat) : String :=
  String.mk (s.data.take (s.data.length - n))

/-- Models Python `s.startswith(t)`. -/
def pyStartsWith (s t : String) : Bool :=
  List.isPrefixOf t.data s.data

/-- Numeric value of a list of decimal digit characters. -/
def natOfDigits (cs : List Char) : Nat :=
  cs.foldl (fun n c => 10 * n + (c.toNat - 48)) 0

/-- All characters are decimal digits. -/
def erCifre (cs : List Char) : Bool :=
  cs.all (fun c => c.isDigit)

/-- Models Python `float()` on plain decimal literals (optional sign,
digits, optional decimal point): the forms occurring in mark data files.
Returns `none` where Python raises `ValueError`. -/
def pyFloat (s : String) : Option ℚ :=
  let signed : Int × List Char :=
    match s.data with
    | '-' :: rest => (-1, rest)
    | '+' :: rest => (1, rest)
    | cs => (1, cs)
  match signed.2.splitOn '.' with
  | [ip] =>
      if (!ip.isEmpty) && erCifre ip then
        some (mkRat (signed.1 * natOfDigits ip) 1)
      else none
  | [ip, fp] =>
      if ((!ip.isEmpty) || (!fp.isEmpty)) && erCifre ip && erCifre fp then
        some (mkRat (signed.1 * natOfDigits (ip ++ fp)) (10 ^ fp.length))
      else none
  | _ => none

/-- Models Python `int()` on plain decimal literals.  Returns `none` where
Python raises `ValueError`. -/
def pyInt (s : String) : Option Int :=
  match s.data with
  | '-' :: rest =>
      if (!rest.isEmpty) && erCifre rest then some (-(natOfDigits rest : Int)) else none
  | '+' :: rest =>
      if (!rest.isEmpty) && erCifre rest then some ((natOfDigits rest : Int)) else none
  | cs =>
      if (!cs.isEmpty) && erCifre cs then some ((natOfDigits cs : Int)) else none

/-- One row of the srid table (`fireapi.model.Srid`): a reference-system
code and its integer id. -/
structure Srid where
  name : String
  sridid : Nat
deriving DecidableEq

/-- One coordinate-history record of a point (`fireapi.model.Koordinat`):
reference-system id, the "valid to" registration marker (`None` = currently
valid), elevation value `z` and its uncertainty `sz`. -/
structure Koordinat where
  sridid : Nat
  registreringtil : Option Nat
  z : ℚ
  sz : ℚ
deriving DecidableEq

/-- The reference-database data reachable from one point's
`PunktInformation`: its geometry (already parsed from the WKT text
`POINT (lon lat)` that `punkt_geometri` reads) and its coordinate
history `punkt.koordinater`. -/
structure PunktData where
  geometri : ℚ × ℚ
  koordinater : List Koordinat
deriving DecidableEq

/-- A resolved point as stored in `eksporter`'s `punktinfo` dict:
the tuple `(geo[0], geo[1], H, sH)`. -/
structure PunktVal where
  lon : ℚ
  lat : ℚ
  H : ℚ
  sH : ℚ
deriving DecidableEq

/-- Embeds `hent_sridid` (mark.py lines 224-229): scan the srid table for the
first row whose name equals the code; 0 when absent. -/
def hent_sridid : List Srid → String → Nat
  | [], _ => 0
  | s :: rest, srid => if s.name = srid then s.sridid else hent_sridid rest srid

/-- The loop body of `punkt_kote` (mark.py lines 202-207): first record
whose `sridid` matches and whose `registreringtil` is unset. -/
def koordinat_scan (koteid : Nat) : List Koordinat → Option Koordinat
  | [] => none
  | koord :: rest =>
      if koord.sridid ≠ koteid then koordinat_scan koteid rest
      else if koord.registreringtil = none then some koord
      else koordinat_scan koteid rest

/-- Embeds `punkt_kote` (mark.py lines 200-207): current coordinate record of the
point for reference system `koteid`, or `None`. -/
def punkt_kote (punktinfo : PunktData) (koteid : Nat) : Option Koordinat :=
  koordinat_scan koteid punktinfo.koordinater

/-- Embeds `punkt_information` (mark.py lines 183-197): database lookup by ident.
`Query.first()` yields `None` when nothing matches, modelled by the
`db` map returning `none`. -/
def punkt_information (db : String → Option PunktData) (ident : String) :
    Option PunktData :=
  db ident

/-- mark.py line 88: `(H, sH) = (0, 0) if kote is None else (kote.z, kote.sz)`. -/
def kote_HsH (kote : Option Koordinat) : ℚ × ℚ :=
  match kote with
  | none => (0, 0)
  | some kote => (kote.z, kote.sz)

/-- One iteration of the `punktinfo` loop in `eksporter` (mark.py lines
84-89): `punkt_information`, then `punkt_geometri` (which crashes with an
`AttributeError` when `punkt_information` returned `None`, since it
dereferences `punktinfo.punktid`), then `punkt_kote` and line 88. -/
def resolve_punkt (db : String → Option PunktData) (koteid : Nat) (ident : String) :
    Except String PunktVal :=
  match punkt_information db ident with
  | none => Except.error ("AttributeError: NoneType punktinfo for " ++ ident)
  | some pd =>
      let geo := pd.geometri
      let kote := punkt_kote pd koteid
      let HsH := kote_HsH kote
      Except.ok ⟨geo.1, geo.2, HsH.1, HsH.2⟩

/-- The full `punktinfo` dict built by `eksporter` (mark.py lines 83-89),
in the order of the (already sorted) ident list; any resolution failure
aborts the whole construction, before any file is opened. -/
def punktinfo_af (db : String → Option PunktData) (koteid : Nat) :
    List String → Except String (List (String × PunktVal))
  | [] => Except.ok []
  | ident :: rest =>
      match resolve_punkt db koteid ident with
      | Except.error e => Except.error e
      | Except.ok val =>
          match punktinfo_af db koteid rest with
          | Except.error e => Except.error e
          | Except.ok tail => Except.ok ((ident, val) :: tail)

/-- A line feature as produced by `obs_feature` (mark.py lines 144-161):
the `properties` and the two `LineString` endpoints. -/
structure Feature where
  fra : String
  til : String
  dist : ℚ
  dH : ℚ
  setups : Int
  journal : String
  coords : (ℚ × ℚ) × (ℚ × ℚ)
deriving DecidableEq

/-- One round of the `obs_feature` generator (mark.py lines 128-162).
The dict values are `Option PunktVal` because Python's `punkter[...]`
values are dynamically typed and the code tests them against `None`;
an absent *key* raises `KeyError` (modelled by `List.lookup = none`).
Errors of the generator surface at the consumer. -/
def obs_feature_en (punkter : List (String × Option PunktVal)) (obs : String) :
    Except String Feature :=
  let dele := pySplit obs
  if dele.length = 9 then
    match punkter.lookup (dele.getD 0 "") with
    | none => Except.error ("KeyError: " ++ dele.getD 0 "")
    | some fraV =>
        match punkter.lookup (dele.getD 1 "") with
        | none => Except.error ("KeyError: " ++ dele.getD 1 "")
        | some tilV =>
            let fra : List ℚ :=
              match fraV with
              | none => [11, 56, 0]
              | some v => [v.lon, v.lat, v.H, v.sH]
            let til : List ℚ :=
              match tilV with
              | none => [11, 56, 0]
              | some v => [v.lon, v.lat, v.H, v.sH]
            let d5 :=
              if pyEndsWith (dele.getD 5 "") "-557" then pyDropRight (dele.getD 5 "") 4
              else dele.getD 5 ""
            match pyFloat (dele.getD 4 ""), pyFloat d5, pyInt (dele.getD 8 "") with
            | some dist, some dH, some setups =>
                Except.ok
                  { fra := dele.getD 0 "", til := dele.getD 1 "",
                    dist := dist, dH := dH, setups := setups,
                    journal := dele.getD 6 "",
                    coords := ((fra.getD 0 0, fra.getD 1 0), (til.getD 0 0, til.getD 1 0)) }
            | _, _, _ => Except.error "ValueError"
  else Except.error ("Malformet observation: " ++ obs)

/-- The whole `obs_feature` generator, realized as a list (the code
realizes it with `list(...)` and by iterating it; both realizations are
deterministic and equal). -/
def obs_feature (punkter : List (String × Option PunktVal)) :
    List String → Except String (List Feature)
  | [] => Except.ok []
  | obs :: rest =>
      match obs_feature_en punkter obs with
      | Except.error e => Except.error e
      | Except.ok f =>
          match obs_feature punkter rest with
          | Except.error e => Except.error e
          | Except.ok fs => Except.ok (f :: fs)

/-- A point feature as produced by `punkt_feature` (mark.py lines 167-180). -/
structure PointFeature where
  id : String
  H : ℚ
  sH : ℚ
  coords : ℚ × ℚ
deriving DecidableEq

/-- Embeds `punkt_feature` (mark.py lines 165-180). -/
def punkt_feature (punkter : List (String × PunktVal)) : List PointFeature :=
  punkter.map (fun p => ⟨p.1, p.2.H, p.2.sH, (p.2.lon, p.2.lat)⟩)

/-- One structural item of the Gama XML output stream. `point` carries the
literal `fix="Z"`/`adj="z"` attribute text; `dh obs` stands for the element
`xml_obs` renders for the feature `obs`. -/
inductive XmlItem where
  | preamble
  | beskrivelse (desc : String)
  | fixedHeader
  | adjustedHeader
  | obsHeader
  | point (fixadj : String) (id : String) (z : ℚ)
  | dh (obs : Feature)
  | postamble
deriving DecidableEq

/-- Embeds `xml_point` (mark.py lines 266-270): attribute text from the `fix`
flag, `z` from `val[2]`. -/
def xml_point (fix : Bool) (key : String) (val : PunktVal) : XmlItem :=
  XmlItem.point (if fix then "fix=\"Z\"" else "adj=\"z\"") key val.H

/-- The Gama XML stream written by `eksporter` (mark.py lines 108-123):
preamble, description, fixed-points header, points whose key starts with
"G.", adjusted-points header, the remaining points, observations header,
one `dh` per observation feature, postamble. -/
def eksporter_xml (desc : String) (punktinfo : List (String × PunktVal))
    (features : List Feature) : List XmlItem :=
  [XmlItem.preamble, XmlItem.beskrivelse desc, XmlItem.fixedHeader]
    ++ (punktinfo.filter (fun p => pyStartsWith p.1 "G.")).map (fun p => xml_point true p.1 p.2)
    ++ [XmlItem.adjustedHeader]
    ++ (punktinfo.filter (fun p => !(pyStartsWith p.1 "G."))).map (fun p => xml_point false p.1 p.2)
    ++ [XmlItem.obsHeader]
    ++ features.map XmlItem.dh
    ++ [XmlItem.postamble]

/-- Content of one written output file. -/
inductive OutFile where
  | pointCollection (fs : List PointFeature)
  | obsCollection (fs : List Feature)
  | xmlFile (items : List XmlItem)
deriving DecidableEq

/-- Embeds `eksporter` (mark.py lines 79-123).  Returns the list of
`(path, content)` pairs of the files written (in order), and the exception
that aborted the run, if any.  The `punktinfo` dict is fully built before
the first file is opened; the dict passed to `obs_feature` holds the
resolved tuples (never `None`). -/
def eksporter (output : String) (observationer : List String)
    (punkter : Finset String) (koteid : Nat) (db : String → Option PunktData) :
    List (String × OutFile) × Option String :=
  match punktinfo_af db koteid (punkter.sort (· ≤ ·)) with
  | Except.error e => ([], some e)
  | Except.ok punktinfo =>
      let w1 := ("punkter.geojson", OutFile.pointCollection (punkt_feature punktinfo))
      match obs_feature (punktinfo.map (fun p => (p.1, some p.2))) observationer with
      | Except.error e => ([w1], some e)
      | Except.ok features =>
          let w2 := ("observationer.geojson", OutFile.obsCollection features)
          let w3 := (output, OutFile.xmlFile (eksporter_xml "bla bla bla" punktinfo features))
          ([w1, w2, w3], none)

/-- mark.py line 59: `'#'!=line[0]` — a line is significant when its first
character is the marker.  Lines from Python file iteration are never
empty, so the default character for the empty string is never consulted. -/
def erSignifikant (line : String) : Bool :=
  line.data.headD 'x' = '#'

/-- mark.py line 61: `line.lstrip('#').strip()`. -/
def strippet (line : String) : String :=
  String.mk (pyStrip (line.data.dropWhile (fun c => c == '#')))

/-- The parse loop of `gamaficer` (mark.py lines 54-66), over the
concatenated lines of all input files, with the accumulated observation
list and ident set.  A significant line is stripped and split on
whitespace; with other than 9 tokens the `assert` raises `AssertionError`
with the offending (stripped) line text, which stops the loop and carries
the partial accumulators to the handler. -/
def parse_linjer : List String → List String → Finset String →
    (List String × Finset String) × Option String
  | [], obs, pkt => ((obs, pkt), none)
  | line :: rest, obs, pkt =>
      if erSignifikant line then
        if (pySplit (strippet line)).length = 9 then
          parse_linjer rest (obs ++ [strippet line])
            (insert ((pySplit (strippet line)).getD 1 "")
              (insert ((pySplit (strippet line)).getD 0 "") pkt))
        else ((obs, pkt), some ("Malformed input line: " ++ strippet line))
      else parse_linjer rest obs pkt

/-- Observable outcome of a `gamaficer` run: diagnostics printed, output
files written, and the uncaught exception (if the run aborted). -/
structure RunResult where
  printed : List String
  writes : List (String × OutFile)
  exc : Option String
deriving DecidableEq

/-- Embeds `gamaficer` (mark.py lines 31-76), after the output-name defaulting.
On a malformed line the `except AssertionError` handler prints the message
and evaluates `click.Abort()` WITHOUT raising it (mark.py line 69), so the
run falls through to the srid lookup and to `eksporter` with the partial
accumulators.  The `assert dvr90 != 0` on line 75 is outside the `try`
and genuinely aborts. -/
def gamaficer (output : String) (filnavne : List (List String))
    (srider : List Srid) (db : String → Option PunktData) : RunResult :=
  let parsed := parse_linjer filnavne.flatten [] ∅
  let printed := match parsed.2 with | some msg => [msg] | none => []
  let dvr90 := hent_sridid srider "EPSG:5799"
  if dvr90 = 0 then
    { printed := printed, writes := [],
      exc := some "AssertionError: DVR90 (EPSG:5799) ikke fundet i srid-tabel" }
  else
    let r := eksporter output parsed.1.1 parsed.1.2 dvr90 db
    { printed := printed, writes := r.1, exc := r.2 }

/-- The significant lines of an input line sequence, stripped as the parse
loop strips them (spec §4.1). -/
def significante (linjer : List String) : List String :=
  linjer.filterMap (fun line =>
    if erSignifikant line then some (strippet line) else none)

/-- Modelled from the spec's words (§4.1, §8): the union of `token[0]` and
`token[1]` over all significant lines, as a duplicate-free set. -/
def spec_idents (linjer : List String) : Finset String :=
  ((significante linjer).flatMap
    (fun l => [(pySplit l).getD 0 "", (pySplit l).getD 1 ""])).toFinset

/-- A printf-style float format directive: sign flag and decimal count. -/
structure Fmt where
  signed : Bool
  decimals : Nat
deriving DecidableEq

/-- The attributes of one `<dh .../>` element as `xml_obs` renders it,
with the numeric values (as reals, `math.sqrt` being real-valued) and
their format directives. -/
structure DhAttrs where
  fra : String
  til : String
  val : ℝ
  valFmt : Fmt
  dist : ℝ
  distFmt : Fmt
  stdev : ℝ
  stdevFmt : Fmt

/-- Embeds `xml_obs` (mark.py lines 273-284): unpack the feature's properties,
convert the distance to km, compute the empirical uncertainty, and render
`val` signed with 5 decimals, `dist` unsigned with 5 decimals and `stdev`
unsigned with 2 decimals. -/
noncomputable def xml_obs (obs : Feature) : DhAttrs :=
  let dist : ℝ := (obs.dist : ℝ) / 1000.0
  let stdev : ℝ := Real.sqrt dist * 0.6 + 0.01 * (obs.setups : ℝ)
  { fra := obs.fra, til := obs.til,
    val := (obs.dH : ℝ), valFmt := ⟨true, 5⟩,
    dist := dist, distFmt := ⟨false, 5⟩,
    stdev := stdev, stdevFmt := ⟨false, 2⟩ }

/-- Modelled from the spec's words (§4.4): `stdev = sqrt(dist_km) * 0.6 +
0.01 * setups`, where `dist_km = dist_m / 1000`. -/
noncomputable def stdev_spec (dist_m setups : ℝ) : ℝ :=
  Real.sqrt (dist_m / 1000) * 0.6 + 0.01 * setups

/-- The XML item is a `<point>` element carrying identifier `k`. -/
def er_punkt_for (k : String) : XmlItem → Bool
  | XmlItem.point _ i _ => i == k
  | _ => false

/-! ## Theorems -/

/-- Claim C1: the claim says a '#'-marked line with other than 9 tokens
makes the run raise a fatal `MalformedInputError` and abort with no output
file written.  The code builds the diagnostic (with the offending line
text) but only constructs `click.Abort()` without raising it, so the run
continues and writes all three output files.  This theorem evaluates the
run at such an input: the diagnostic is printed, yet the three files are
written and no exception escapes. -/
theorem c1_malformet_linje_fortsaetter :
    (gamaficer "ud.xml" [["# A B"]] [⟨"EPSG:5799", 5⟩] (fun _ => none)).printed
        = ["Malformed input line: A B"]
      ∧ ((gamaficer "ud.xml" [["# A B"]] [⟨"EPSG:5799", 5⟩] (fun _ => none)).writes).map Prod.fst
        = ["punkter.geojson", "observationer.geojson", "ud.xml"]
      ∧ (gamaficer "ud.xml" [["# A B"]] [⟨"EPSG:5799", 5⟩] (fun _ => none)).exc = none := by
  have hp : parse_linjer (List.flatten [["# A B"]]) [] ∅
      = (([], (∅ : Finset String)), some "Malformed input line: A B") := by decide
  simp only [gamaficer, hp, eksporter, Finset.sort_empty, punktinfo_af, obs_feature,
    punkt_feature, eksporter_xml, hent_sridid]
  norm_num

/-- Claim C2: the claim says an observation whose endpoint identifier is
absent from the resolved-point mapping still yields a feature, with the
sentinel coordinate substituted.  The code evaluates `punkter[dele[0]]`,
which raises `KeyError` for an absent key, so no feature is produced; the
sentinel branch is reachable only for a key mapped to `None`.  This
theorem evaluates `obs_feature` at an observation whose identifiers are
absent from the (empty) mapping. -/
theorem c2_manglende_ident_keyerror :
    obs_feature_en [] "A B 0 0 4000 1.0 j 0 1" = Except.error "KeyError: A" := rfl

/-- Claim C3: when the srid lookup for the elevation reference system
returns 0, the `assert dvr90 != 0` (outside the `try` block) raises and
the run aborts before `eksporter` is called, hence before any of the three
output files is opened: no file is written. -/
theorem c3_srid_nul_afbryder (output : String) (filnavne : List (List String))
    (srider : List Srid) (db : String → Option PunktData)
    (h : hent_sridid srider "EPSG:5799" = 0) :
    (gamaficer output filnavne srider db).writes = []
      ∧ (gamaficer output filnavne srider db).exc
        = some "AssertionError: DVR90 (EPSG:5799) ikke fundet i srid-tabel" := by
  simp [gamaficer, h]

/-- Witness for C3 at a concrete empty srid table. -/
theorem c3_srid_nul_afbryder_witness :
    hent_sridid [] "EPSG:5799" = 0
      ∧ (gamaficer "ud.xml" [] [] (fun _ => none)).writes = []
      ∧ (gamaficer "ud.xml" [] [] (fun _ => none)).exc
        = some "AssertionError: DVR90 (EPSG:5799) ikke fundet i srid-tabel" :=
  ⟨rfl, c3_srid_nul_afbryder "ud.xml" [] [] (fun _ => none) rfl⟩

/-- Claim C10: whenever `eksporter` completes without an exception, it has
written exactly three files: the point feature collection at the fixed
relative path "punkter.geojson", the observation feature collection at the
fixed relative path "observationer.geojson", and the Gama XML file at the
path given by the `output` argument — which therefore determines only the
XML file's path. -/
theorem c10_output_stier (output : String) (observationer : List String)
    (punkter : Finset String) (koteid : Nat) (db : String → Option PunktData)
    (ws : List (String × OutFile)) (h : eksporter output observationer punkter koteid db = (ws, none)) :
    ∃ pf fs xs,
      ws = [("punkter.geojson", OutFile.pointCollection pf),
            ("observationer.geojson", OutFile.obsCollection fs),
            (output, OutFile.xmlFile xs)] := by
  simp only [eksporter] at h
  split at h
  · have := congrArg Prod.snd h; simp at this
  · split at h
    · have := congrArg Prod.snd h; simp at this
    · have hw := congrArg Prod.fst h
      simp only at hw
      exact ⟨_, _, _, hw.symm⟩

/-- Witness for C10 at a concrete error-free run. -/
theorem c10_output_stier_witness :
    ∃ pf fs xs,
      [("punkter.geojson", OutFile.pointCollection ([] : List PointFeature)),
       ("observationer.geojson", OutFile.obsCollection ([] : List Feature)),
       ("ud.xml", OutFile.xmlFile (eksporter_xml "bla bla bla" [] []))]
        = [("punkter.geojson", OutFile.pointCollection pf),
           ("observationer.geojson", OutFile.obsCollection fs),
           ("ud.xml", OutFile.xmlFile xs)] :=
  c10_output_stier "ud.xml" [] ∅ 1 (fun _ => none) _
    (by simp only [eksporter, Finset.sort_empty, punktinfo_af, obs_feature, punkt_feature,
          List.map_nil])

/-- Helper: the scan returns the unique matching currently-valid record,
ignoring records for other reference systems and superseded records. -/
lemma koordinat_scan_unik (koteid : Nat) (k : Koordinat) :
    ∀ l : List Koordinat, k ∈ l → k.sridid = koteid → k.registreringtil = none →
      (∀ c ∈ l, c.sridid = koteid → c.registreringtil = none → c = k) →
      koordinat_scan koteid l = some k := by
  intro l
  induction l with
  | nil => intro h; simp at h
  | cons c rest ih =>
    intro hmem hsrid hreg huniq
    by_cases hcs : c.sridid = koteid
    · by_cases hcr : c.registreringtil = none
      · have hck : c = k := huniq c (List.mem_cons_self c rest) hcs hcr
        subst hck
        simp [koordinat_scan, hcs, hcr]
      · have hk : k ∈ rest := by
          rcases List.mem_cons.1 hmem with h | h
          · exact absurd (h ▸ hreg) hcr
          · exact h
        simpa [koordinat_scan, hcs, hcr] using
          ih hk hsrid hreg (fun d hd => huniq d (List.mem_cons_of_mem _ hd))
    · have hk : k ∈ rest := by
        rcases List.mem_cons.1 hmem with h | h
        · exact absurd (h ▸ hsrid) hcs
        · exact h
      simpa [koordinat_scan, hcs] using
        ih hk hsrid hreg (fun d hd => huniq d (List.mem_cons_of_mem _ hd))

/-- Helper: the scan finds nothing when no record for the reference system
is currently valid. -/
lemma koordinat_scan_tom (koteid : Nat) :
    ∀ l : List Koordinat, (∀ c ∈ l, c.sridid = koteid → c.registreringtil ≠ none) →
      koordinat_scan koteid l = none := by
  intro l
  induction l with
  | nil => intro; simp [koordinat_scan]
  | cons c rest ih =>
    intro h
    by_cases hcs : c.sridid = koteid
    · have hcr : c.registreringtil ≠ none := h c (List.mem_cons_self c rest) hcs
      simpa [koordinat_scan, hcs, hcr] using ih (fun d hd => h d (List.mem_cons_of_mem _ hd))
    · simpa [koordinat_scan, hcs] using ih (fun d hd => h d (List.mem_cons_of_mem _ hd))

/-- Claim C6: when the coordinate history holds exactly one record for the
elevation reference system with the valid-to marker unset, `punkt_kote`
returns that record — superseded records for the same system and records
for other systems are ignored — and the resolved point carries its value
and uncertainty. -/
theorem c6_aktuel_kote (db : String → Option PunktData) (koteid : Nat) (ident : String)
    (pd : PunktData) (k : Koordinat)
    (hdb : db ident = some pd)
    (hmem : k ∈ pd.koordinater) (hsrid : k.sridid = koteid) (hreg : k.registreringtil = none)
    (huniq : ∀ c ∈ pd.koordinater, c.sridid = koteid → c.registreringtil = none → c = k) :
    punkt_kote pd koteid = some k
      ∧ resolve_punkt db koteid ident
        = Except.ok ⟨pd.geometri.1, pd.geometri.2, k.z, k.sz⟩ := by
  have hscan : koordinat_scan koteid pd.koordinater = some k :=
    koordinat_scan_unik koteid k pd.koordinater hmem hsrid hreg huniq
  refine ⟨hscan, ?_⟩
  simp [resolve_punkt, punkt_information, hdb, punkt_kote, hscan, kote_HsH]

/-- Witness for C6: a history with a superseded record and a record for a
different reference system around the single currently valid record. -/
theorem c6_aktuel_kote_witness :
    punkt_kote ⟨(1, 2), [⟨1, some 5, 10, 1⟩, ⟨2, none, 99, 9⟩, ⟨1, none, 7, 2⟩]⟩ 1
        = some ⟨1, none, 7, 2⟩
      ∧ resolve_punkt
          (fun i => if i = "A" then some ⟨(1, 2), [⟨1, some 5, 10, 1⟩, ⟨2, none, 99, 9⟩, ⟨1, none, 7, 2⟩]⟩ else none)
          1 "A"
        = Except.ok ⟨1, 2, 7, 2⟩ :=
  c6_aktuel_kote _ 1 "A" _ ⟨1, none, 7, 2⟩ (by decide) (by decide) (by decide) (by decide)
    (by decide)

/-- Claim C7: when the coordinate history holds no currently valid record
for the elevation reference system, `punkt_kote` returns `None` and the
resolved point's elevation and elevation-uncertainty default to 0. -/
theorem c7_ingen_kote_nul (db : String → Option PunktData) (koteid : Nat) (ident : String)
    (pd : PunktData)
    (hdb : db ident = some pd)
    (h : ∀ c ∈ pd.koordinater, c.sridid = koteid → c.registreringtil ≠ none) :
    punkt_kote pd koteid = none
      ∧ resolve_punkt db koteid ident
        = Except.ok ⟨pd.geometri.1, pd.geometri.2, 0, 0⟩ := by
  have hscan : koordinat_scan koteid pd.koordinater = none :=
    koordinat_scan_tom koteid pd.koordinater h
  refine ⟨hscan, ?_⟩
  simp [resolve_punkt, punkt_information, hdb, punkt_kote, hscan, kote_HsH]

/-- Witness for C7: a history with only a foreign-system record and a
superseded record for the target system. -/
theorem c7_ingen_kote_nul_witness :
    punkt_kote ⟨(3, 4), [⟨2, none, 5, 1⟩, ⟨1, some 3, 7, 2⟩]⟩ 1 = none
      ∧ resolve_punkt
          (fun i => if i = "B" then some ⟨(3, 4), [⟨2, none, 5, 1⟩, ⟨1, some 3, 7, 2⟩]⟩ else none)
          1 "B"
        = Except.ok ⟨3, 4, 0, 0⟩ :=
  c7_ingen_kote_nul _ 1 "B" _ (by decide) (by decide)

/-- Claim C8: every feature `obs_feature` produces carries a `dH` parsed
from the `delta_height_m` token after the "-557" repair: a token ending in
the literal suffix "-557" is stripped of its trailing 4 characters before
the float parse, any other token is parsed unchanged. -/
theorem c8_reparation_557 (punkter : List (String × Option PunktVal)) (obs : String)
    (f : Feature) (h : obs_feature_en punkter obs = Except.ok f) :
    some f.dH
      = pyFloat (if pyEndsWith ((pySplit obs).getD 5 "") "-557"
                 then pyDropRight ((pySplit obs).getD 5 "") 4
                 else (pySplit obs).getD 5 "") := by
  simp only [obs_feature_en] at h
  split at h
  · split at h
    · exact absurd h (by simp)
    · split at h
      · exact absurd h (by simp)
      · split at h
        · rename_i dist dH setups hdist hdH hsetups
          rw [Except.ok.injEq] at h
          subst h
          exact hdH.symm
        · exact absurd h (by simp)
  · exact absurd h (by simp)

/-- Witness for C8: a corrupted token "1.25-557" is repaired to "1.25" and
parsed as 1.25 = 125/100. -/
theorem c8_reparation_557_witness :
    some (mkRat 125 100)
      = pyFloat (if pyEndsWith ((pySplit "A B 0 0 4000 1.25-557 j 0 2").getD 5 "") "-557"
                 then pyDropRight ((pySplit "A B 0 0 4000 1.25-557 j 0 2").getD 5 "") 4
                 else (pySplit "A B 0 0 4000 1.25-557 j 0 2").getD 5 "") :=
  c8_reparation_557 [("A", some ⟨1, 2, 3, 4⟩), ("B", some ⟨5, 6, 7, 8⟩)]
    "A B 0 0 4000 1.25-557 j 0 2"
    ⟨"A", "B", 4000, mkRat 125 100, 2, "j", ((1, 2), (5, 6))⟩ rfl

/-- Claim C4: the per-observation uncertainty `xml_obs` renders equals
`sqrt(dist_km) * 0.6 + 0.01 * setups` with `dist_km = dist / 1000`, and it
is written with the unsigned 2-decimals directive; at the spec's examples,
`dist = 4000 m, setups = 0` gives 1.2 and `dist = 0, setups = 10` gives
0.1. -/
theorem c4_stdev_formel :
    (∀ obs : Feature,
        (xml_obs obs).stdev = stdev_spec (obs.dist : ℝ) (obs.setups : ℝ)
          ∧ (xml_obs obs).stdevFmt = ⟨false, 2⟩)
      ∧ (xml_obs ⟨"A", "B", 4000, 0, 0, "j", ((0, 0), (0, 0))⟩).stdev = 1.2
      ∧ (xml_obs ⟨"A", "B", 0, 0, 10, "j", ((0, 0), (0, 0))⟩).stdev = 0.1 := by
  refine ⟨fun obs => ⟨by norm_num [xml_obs, stdev_spec], rfl⟩, ?_, ?_⟩
  · show Real.sqrt (((4000 : ℚ) : ℝ) / 1000.0) * 0.6 + 0.01 * ((0 : Int) : ℝ) = 1.2
    rw [show ((4000 : ℚ) : ℝ) / 1000.0 = (2 : ℝ) ^ 2 by norm_num]
    rw [Real.sqrt_sq (by norm_num)]
    norm_num
  · show Real.sqrt (((0 : ℚ) : ℝ) / 1000.0) * 0.6 + 0.01 * ((10 : Int) : ℝ) = 0.1
    rw [show ((0 : ℚ) : ℝ) / 1000.0 = (0 : ℝ) by norm_num]
    rw [Real.sqrt_zero]
    norm_num

/-- Helper: on input whose significant lines all have 9 tokens, the parse
loop completes without error, appends the stripped significant lines to
the observation list, and adds both endpoint tokens of every significant
line to the ident set. -/
lemma parse_linjer_ok :
    ∀ linjer : List String, (∀ l ∈ significante linjer, (pySplit l).length = 9) →
      ∀ obs pkt, parse_linjer linjer obs pkt
        = ((obs ++ significante linjer, pkt ∪ spec_idents linjer), none) := by
  intro linjer
  induction linjer with
  | nil =>
    intro h9 obs pkt
    simp [parse_linjer, significante, spec_idents]
  | cons line rest ih =>
    intro h9 obs pkt
    by_cases hsig : erSignifikant line
    · have hstrip : significante (line :: rest) = strippet line :: significante rest := by
        simp only [significante, List.filterMap_cons, if_pos hsig]
      have h9l : (pySplit (strippet line)).length = 9 := by
        apply h9
        rw [hstrip]
        exact List.mem_cons_self _ _
      have h9rest : ∀ l ∈ significante rest, (pySplit l).length = 9 := by
        intro l hl
        apply h9
        rw [hstrip]
        exact List.mem_cons_of_mem _ hl
      show parse_linjer (line :: rest) obs pkt = _
      rw [parse_linjer, if_pos hsig, if_pos h9l, ih h9rest]
      refine congrArg (fun q => (q, none)) (congrArg₂ Prod.mk ?_ ?_)
      · rw [hstrip]
        simp
      · ext x
        simp only [spec_idents, hstrip, List.flatMap_cons, List.toFinset_append,
          Finset.mem_union, Finset.mem_insert, List.toFinset_cons, List.toFinset_nil,
          List.mem_toFinset, Finset.not_mem_empty]
        tauto
    · have hstrip : significante (line :: rest) = significante rest := by
        simp only [significante, List.filterMap_cons, if_neg hsig]
      have h9rest : ∀ l ∈ significante rest, (pySplit l).length = 9 := by
        intro l hl
        apply h9
        rw [hstrip]
        exact hl
      show parse_linjer (line :: rest) obs pkt = _
      rw [parse_linjer, if_neg hsig, ih h9rest]
      simp only [spec_idents, hstrip]

/-- Helper: the spec-side ident set only depends on the multiset of lines. -/
lemma spec_idents_perm {l1 l2 : List String} (h : l1.Perm l2) :
    spec_idents l1 = spec_idents l2 := by
  ext x
  simp only [spec_idents, List.mem_toFinset, List.mem_flatMap, significante,
    List.mem_filterMap]
  constructor <;> rintro ⟨l, ⟨line, hline, hf⟩, hx⟩
  · exact ⟨l, ⟨line, h.mem_iff.1 hline, hf⟩, hx⟩
  · exact ⟨l, ⟨line, h.mem_iff.2 hline, hf⟩, hx⟩

/-- Claim C9: for well-formed input, the ident set the parse loop builds
equals the union of `token[0]` and `token[1]` over all '#'-marked lines
(duplicate-free by construction), and two inputs whose line sequences are
permutations of one another — lines reordered within or across files —
yield the same set. -/
theorem c9_punktmaengde (f1 f2 : List (List String))
    (h1 : ∀ l ∈ significante f1.flatten, (pySplit l).length = 9)
    (h2 : ∀ l ∈ significante f2.flatten, (pySplit l).length = 9)
    (hperm : f1.flatten.Perm f2.flatten) :
    (parse_linjer f1.flatten [] ∅).1.2 = spec_idents f1.flatten
      ∧ (parse_linjer f1.flatten [] ∅).2 = none
      ∧ (parse_linjer f1.flatten [] ∅).1.2 = (parse_linjer f2.flatten [] ∅).1.2 := by
  rw [parse_linjer_ok f1.flatten h1 [] ∅, parse_linjer_ok f2.flatten h2 [] ∅]
  refine ⟨by simp, rfl, ?_⟩
  simp [spec_idents_perm hperm]

/-- Witness for C9: two files whose lines are swapped between the files. -/
theorem c9_punktmaengde_witness :
    (parse_linjer [["# A B 0 0 1 2 j 0 3"], ["# B C 0 0 1 2 j 0 3"]].flatten [] ∅).1.2
        = spec_idents [["# A B 0 0 1 2 j 0 3"], ["# B C 0 0 1 2 j 0 3"]].flatten
      ∧ (parse_linjer [["# A B 0 0 1 2 j 0 3"], ["# B C 0 0 1 2 j 0 3"]].flatten [] ∅).2 = none
      ∧ (parse_linjer [["# A B 0 0 1 2 j 0 3"], ["# B C 0 0 1 2 j 0 3"]].flatten [] ∅).1.2
        = (parse_linjer [["# B C 0 0 1 2 j 0 3"], ["# A B 0 0 1 2 j 0 3"]].flatten [] ∅).1.2 :=
  c9_punktmaengde [["# A B 0 0 1 2 j 0 3"], ["# B C 0 0 1 2 j 0 3"]]
    [["# B C 0 0 1 2 j 0 3"], ["# A B 0 0 1 2 j 0 3"]]
    (by decide) (by decide) (by decide)

/-- Helper: a Boolean predicate's count splits along a second predicate. -/
lemma countP_opdeling {α : Type} (l : List α) (p q : α → Bool) :
    l.countP (fun a => p a && q a) + l.countP (fun a => p a && !q a) = l.countP p := by
  induction l with
  | nil => simp
  | cons a l ih =>
    by_cases hp : p a <;> by_cases hq : q a <;>
      simp [List.countP_cons, hp, hq] <;> omega

/-- Helper: a list of pairs with duplicate-free keys holds exactly one
entry for a key it contains. -/
lemma countP_noegle_en {β : Type} (punktinfo : List (String × β)) (k : String) (v : β)
    (hnodup : (punktinfo.map Prod.fst).Nodup) (hmem : (k, v) ∈ punktinfo) :
    punktinfo.countP (fun p => p.1 == k) = 1 := by
  have hmk : k ∈ punktinfo.map Prod.fst := List.mem_map_of_mem Prod.fst hmem
  have h1 : (punktinfo.map Prod.fst).count k = 1 :=
    List.count_eq_one_of_mem hnodup hmk
  rw [List.count, List.countP_map] at h1
  exact h1

/-- Claim C5: in the Gama XML output every resolved point appears exactly
once as a `<point>` element; it carries `fix="Z"` and sits in the
fixed-points section exactly when its identifier starts with "G.",
otherwise it carries `adj="z"` and sits in the adjusted-points section;
and the fixed section precedes the adjusted section. -/
theorem c5_xml_punkt_sektioner (desc : String) (punktinfo : List (String × PunktVal))
    (features : List Feature) (k : String) (v : PunktVal)
    (hnodup : (punktinfo.map Prod.fst).Nodup) (hmem : (k, v) ∈ punktinfo) :
    ((eksporter_xml desc punktinfo features).filter (er_punkt_for k)).length = 1
      ∧ XmlItem.point (if pyStartsWith k "G." then "fix=\"Z\"" else "adj=\"z\"") k v.H
          ∈ eksporter_xml desc punktinfo features
      ∧ ∃ pre mid post,
          eksporter_xml desc punktinfo features
              = pre ++ XmlItem.fixedHeader :: mid ++ XmlItem.adjustedHeader :: post
            ∧ (∀ a i z, XmlItem.point a i z ∉ pre)
            ∧ (∀ a i z, XmlItem.point a i z ∈ mid →
                a = "fix=\"Z\"" ∧ pyStartsWith i "G." = true)
            ∧ (∀ a i z, XmlItem.point a i z ∈ post →
                a = "adj=\"z\"" ∧ pyStartsWith i "G." = false) := by
  refine ⟨?_, ?_, ?_⟩
  · rw [← List.countP_eq_length_filter]
    simp only [eksporter_xml, List.countP_append, List.countP_map, List.countP_filter]
    have h1 : List.countP (er_punkt_for k)
        [XmlItem.preamble, XmlItem.beskrivelse desc, XmlItem.fixedHeader] = 0 := by
      simp [List.countP_cons, er_punkt_for]
    have h2 : List.countP (er_punkt_for k) [XmlItem.adjustedHeader] = 0 := by
      simp [List.countP_cons, er_punkt_for]
    have h3 : List.countP (er_punkt_for k) [XmlItem.obsHeader] = 0 := by
      simp [List.countP_cons, er_punkt_for]
    have h4 : List.countP (er_punkt_for k) [XmlItem.postamble] = 0 := by
      simp [List.countP_cons, er_punkt_for]
    have h5 : List.countP (er_punkt_for k ∘ XmlItem.dh) features = 0 := by
      simp [List.countP_eq_zero, er_punkt_for]
    have h6 : (er_punkt_for k ∘ fun p => xml_point true p.1 p.2)
        = fun p : String × PunktVal => (p.1 == k) := by
      funext p
      simp [er_punkt_for, xml_point]
    have h7 : (er_punkt_for k ∘ fun p => xml_point false p.1 p.2)
        = fun p : String × PunktVal => (p.1 == k) := by
      funext p
      simp [er_punkt_for, xml_point]
    rw [h1, h2, h3, h4, h5, h6, h7]
    have h8 : punktinfo.countP (fun a => (a.1 == k) && pyStartsWith a.1 "G.")
        + punktinfo.countP (fun a => (a.1 == k) && !(pyStartsWith a.1 "G."))
        = punktinfo.countP (fun p => p.1 == k) :=
      countP_opdeling punktinfo _ _
    have h9 := countP_noegle_en punktinfo k v hnodup hmem
    beta_reduce
    omega
  · by_cases hG : pyStartsWith k "G." = true
    · rw [if_pos hG]
      have hf : (k, v) ∈ punktinfo.filter (fun p => pyStartsWith p.1 "G.") :=
        List.mem_filter.2 ⟨hmem, hG⟩
      have hm : XmlItem.point "fix=\"Z\"" k v.H ∈
          (punktinfo.filter (fun p => pyStartsWith p.1 "G.")).map
            (fun p => xml_point true p.1 p.2) := by
        simpa [xml_point] using
          List.mem_map_of_mem (fun p : String × PunktVal => xml_point true p.1 p.2) hf
      simp only [eksporter_xml, List.mem_append]
      tauto
    · rw [if_neg hG]
      have hf : (k, v) ∈ punktinfo.filter (fun p => !(pyStartsWith p.1 "G.")) :=
        List.mem_filter.2 ⟨hmem, by simp [hG]⟩
      have hm : XmlItem.point "adj=\"z\"" k v.H ∈
          (punktinfo.filter (fun p => !(pyStartsWith p.1 "G."))).map
            (fun p => xml_point false p.1 p.2) := by
        simpa [xml_point] using
          List.mem_map_of_mem (fun p : String × PunktVal => xml_point false p.1 p.2) hf
      simp only [eksporter_xml, List.mem_append]
      tauto
  · refine ⟨[XmlItem.preamble, XmlItem.beskrivelse desc],
      (punktinfo.filter (fun p => pyStartsWith p.1 "G.")).map (fun p => xml_point true p.1 p.2),
      (punktinfo.filter (fun p => !(pyStartsWith p.1 "G."))).map (fun p => xml_point false p.1 p.2)
        ++ XmlItem.obsHeader :: features.map XmlItem.dh ++ [XmlItem.postamble],
      ?_, ?_, ?_, ?_⟩
    · simp [eksporter_xml]
    · intro a i z
      simp
    · intro a i z hmid
      obtain ⟨p, hp, heq⟩ := List.mem_map.1 hmid
      obtain ⟨hpmem, hpG⟩ := List.mem_filter.1 hp
      simp only [xml_point] at heq
      injection heq with ha hi hz
      exact ⟨ha.symm, hi ▸ hpG⟩
    · intro a i z hpost
      rcases List.mem_append.1 hpost with h | h
      · rcases List.mem_append.1 h with h | h
        · obtain ⟨p, hp, heq⟩ := List.mem_map.1 h
          obtain ⟨hpmem, hpG⟩ := List.mem_filter.1 hp
          simp only [xml_point] at heq
          injection heq with ha hi hz
          refine ⟨ha.symm, ?_⟩
          have := hi ▸ hpG
          simpa using this
        · rcases List.mem_cons.1 h with h | h
          · exact absurd h (by simp)
          · obtain ⟨f, hf, heq⟩ := List.mem_map.1 h
            exact absurd heq (by simp)
      · rcases List.mem_cons.1 h with h | h
        · exact absurd h (by simp)
        · exact absurd h (by simp)

/-- Witness for C5 with idents "G.1" (fixed-point prefix) and "P1". -/
theorem c5_xml_punkt_sektioner_witness :
    ((eksporter_xml "bla" [("G.1", ⟨1, 2, 3, 4⟩), ("P1", ⟨5, 6, 7, 8⟩)] []).filter
        (er_punkt_for "G.1")).length = 1
      ∧ ((eksporter_xml "bla" [("G.1", ⟨1, 2, 3, 4⟩), ("P1", ⟨5, 6, 7, 8⟩)] []).filter
        (er_punkt_for "P1")).length = 1
      ∧ XmlItem.point "fix=\"Z\"" "G.1" 3
          ∈ eksporter_xml "bla" [("G.1", ⟨1, 2, 3, 4⟩), ("P1", ⟨5, 6, 7, 8⟩)] []
      ∧ XmlItem.point "adj=\"z\"" "P1" 7
          ∈ eksporter_xml "bla" [("G.1", ⟨1, 2, 3, 4⟩), ("P1", ⟨5, 6, 7, 8⟩)] [] :=
  ⟨(c5_xml_punkt_sektioner "bla" [("G.1", ⟨1, 2, 3, 4⟩), ("P1", ⟨5, 6, 7, 8⟩)] [] "G.1"
      ⟨1, 2, 3, 4⟩ (by decide) (by decide)).1,
   (c5_xml_punkt_sektioner "bla" [("G.1", ⟨1, 2, 3, 4⟩), ("P1", ⟨5, 6, 7, 8⟩)] [] "P1"
      ⟨5, 6, 7, 8⟩ (by decide) (by decide)).1,
   (c5_xml_punkt_sektioner "bla" [("G.1", ⟨1, 2, 3, 4⟩), ("P1", ⟨5, 6, 7, 8⟩)] [] "G.1"
      ⟨1, 2, 3, 4⟩ (by decide) (by decide)).2.1,
   (c5_xml_punkt_sektioner "bla" [("G.1", ⟨1, 2, 3, 4⟩), ("P1", ⟨5, 6, 7, 8⟩)] [] "P1"
      ⟨5, 6, 7, 8⟩ (by decide) (by decide)).2.1⟩
